import Mathlib

/-!
Shallow embedding of the VolumeControllerWidget application (src/main.py).

The widget keeps two Qt sliders (master speaker volume, microphone volume),
two mute icons, and a settings record. A 200 ms timer drives update_volumes,
which reads each OS audio endpoint and reconciles the UI; user events
(slider drags, mute clicks, autostart toggle, close) push changes to the OS.

Modelling choices:
  - A Qt slider is a record of its range, current value and the
    signalsBlocked flag. setValue clamps to the range and reports whether
    the valueChanged signal is delivered (value changed and not blocked),
    exactly the Qt semantics the code relies on.
  - The OS audio stack is a pair of Option endpoints: none means every COM
    call on that endpoint raises (endpoint unavailable), which the Python
    code catches with try/except blocks; some ep carries the scalar level
    (a rational standing for the float in 0.0..1.0) and the mute flag.
  - Python int(x) truncates toward zero: pyTrunc below.
  - Fallible handlers are Except-valued; a try/except in the source becomes
    a match on the Except that restores the pre-call state.
-/

namespace VolumeWidget

/-- State of one QSlider: range set by setRange, the current value, and the
signalsBlocked flag toggled by blockSignals. -/
structure SliderState where
  lo : ℤ
  hi : ℤ
  value : ℤ
  blocked : Bool
deriving DecidableEq, Repr

/-- QAbstractSlider.setValue: the new value is bound to the range, and
valueChanged is emitted exactly when the bound value differs from the old
value and signals are not blocked. Returns the new state and whether the
valueChanged signal fires. -/
def SliderState.setValue (s : SliderState) (v : ℤ) : SliderState × Bool :=
  let c := max s.lo (min s.hi v)
  ({ s with value := c }, if c = s.value then false else !s.blocked)

/-- QObject.blockSignals. -/
def SliderState.blockSignals (s : SliderState) (b : Bool) : SliderState :=
  { s with blocked := b }

/-- One OS audio endpoint as seen through IAudioEndpointVolume:
GetMasterVolumeLevelScalar and GetMute. -/
structure OsEndpoint where
  levelScalar : ℚ
  mute : Bool
deriving DecidableEq, Repr

/-- The persisted settings record: widget_settings.json keys, each optional
because a loaded JSON object may lack any of them (dict.get fallbacks). -/
structure Settings where
  background_color : Option String
  background_opacity : Option ℚ
  buttons_color : Option String
  buttons_opacity : Option ℚ
  autostart : Option Bool
  position : Option (ℤ × ℤ)
deriving DecidableEq, Repr

/-- The external world: the two audio endpoints (none = unavailable, every
COM call on it raises), whether widget_settings.json can be written, the
autostart Run registry key (none = key inaccessible, some b = whether the
AudioWidget value currently exists), and the last successfully saved
settings. -/
structure Env where
  speaker : Option OsEndpoint
  mic : Option OsEndpoint
  settingsWritable : Bool
  registry : Option Bool
  savedSettings : Option Settings
deriving DecidableEq, Repr

/-- The UI-held state: the two sliders, the two locally held mute flags,
the speaker label glyph, and whether the microphone pixmap currently has
the red strike-through overlay. -/
structure WidgetState where
  master : SliderState
  mic : SliderState
  isMasterMuted : Bool
  isMicMuted : Bool
  speakerLabel : String
  micIconStruck : Bool
deriving DecidableEq, Repr

/-- Python int() applied to a rational: truncation toward zero. -/
def pyTrunc (q : ℚ) : ℤ :=
  q.num.tdiv q.den

/-- Sliders as built in init_ui: setRange(0, 100), initial Qt value 0,
signals not blocked. -/
def initSlider : SliderState :=
  { lo := 0, hi := 100, value := 0, blocked := false }

/-- Widget state right after init_ui: both sliders fresh, both mute flags
false, speaker label showing the sound-on glyph, no mic strike-through. -/
def initWidget : WidgetState :=
  { master := initSlider, mic := initSlider,
    isMasterMuted := false, isMicMuted := false,
    speakerLabel := "🔊", micIconStruck := false }

/-- update_mic_icon: redraw the mic pixmap; the strike-through overlay is
drawn exactly when is_mic_muted holds. -/
def update_mic_icon (w : WidgetState) : WidgetState :=
  { w with micIconStruck := w.isMicMuted }

/-- change_master_volume(value): SetMasterVolumeLevelScalar(value / 100) on
the speaker endpoint, the whole body in try/except so an unavailable
endpoint leaves everything unchanged. The widget state is untouched. -/
def change_master_volume (env : Env) (value : ℤ) : Env :=
  match env.speaker with
  | some ep => { env with speaker := some { ep with levelScalar := (value : ℚ) / 100 } }
  | none => env

/-- change_mic_volume(value): same as change_master_volume for the
microphone endpoint. -/
def change_mic_volume (env : Env) (value : ℤ) : Env :=
  match env.mic with
  | some ep => { env with mic := some { ep with levelScalar := (value : ℚ) / 100 } }
  | none => env

/-- A user drag of the master slider to v: Qt sets the slider value
(clamped), and if the valueChanged signal fires it invokes the connected
slot change_master_volume with the new slider value. -/
def userSetMaster (env : Env) (w : WidgetState) (v : ℤ) : Env × WidgetState :=
  let r := w.master.setValue v
  let w1 := { w with master := r.1 }
  let env1 := if r.2 then change_master_volume env r.1.value else env
  (env1, w1)

/-- A user drag of the mic slider to v, invoking change_mic_volume when the
valueChanged signal fires. -/
def userSetMic (env : Env) (w : WidgetState) (v : ℤ) : Env × WidgetState :=
  let r := w.mic.setValue v
  let w1 := { w with mic := r.1 }
  let env1 := if r.2 then change_mic_volume env r.1.value else env
  (env1, w1)

/-- toggle_mute_master: flip is_master_muted first, then try SetMute(new
flag) on the speaker endpoint (failure caught), then set the speaker label
glyph from the new local flag. -/
def toggle_mute_master (env : Env) (w : WidgetState) : Env × WidgetState :=
  let b := !w.isMasterMuted
  let w1 := { w with isMasterMuted := b }
  let env1 :=
    match env.speaker with
    | some ep => { env with speaker := some { ep with mute := b } }
    | none => env
  (env1, { w1 with speakerLabel := if b then "🔇" else "🔊" })

/-- toggle_mute_mic: flip is_mic_muted first, then try SetMute(new flag) on
the microphone endpoint (failure caught), then update_mic_icon from the new
local flag. -/
def toggle_mute_mic (env : Env) (w : WidgetState) : Env × WidgetState :=
  let b := !w.isMicMuted
  let w1 := { w with isMicMuted := b }
  let env1 :=
    match env.mic with
    | some ep => { env with mic := some { ep with mute := b } }
    | none => env
  (env1, update_mic_icon w1)

/-- The first try block of update_volumes: read the speaker endpoint; if
int(scalar * 100) differs from the slider value, blockSignals(True),
setValue, blockSignals(False); then set is_master_muted from GetMute and
the speaker label glyph from it. A raised exception (endpoint none) leaves
everything unchanged. Returns the new env and widget together with whether
the valueChanged signal of the master slider fired (in which case the connected
change_master_volume slot runs). -/
def pollSpeaker (env : Env) (w : WidgetState) : Env × WidgetState × Bool :=
  match env.speaker with
  | none => (env, w, false)
  | some ep =>
      let current := pyTrunc (ep.levelScalar * 100)
      let res :=
        if w.master.value ≠ current then
          let m := w.master.blockSignals true
          let r := m.setValue current
          ({ w with master := r.1.blockSignals false }, r.2)
        else (w, false)
      let env1 := if res.2 then change_master_volume env res.1.master.value else env
      (env1,
       { res.1 with isMasterMuted := ep.mute,
                    speakerLabel := if ep.mute then "🔇" else "🔊" },
       res.2)

/-- The second try block of update_volumes: same for the microphone
endpoint, setting is_mic_muted from GetMute (the mic icon itself is redrawn
by the caller, outside the try block). -/
def pollMic (env : Env) (w : WidgetState) : Env × WidgetState × Bool :=
  match env.mic with
  | none => (env, w, false)
  | some ep =>
      let current := pyTrunc (ep.levelScalar * 100)
      let res :=
        if w.mic.value ≠ current then
          let m := w.mic.blockSignals true
          let r := m.setValue current
          ({ w with mic := r.1.blockSignals false }, r.2)
        else (w, false)
      let env1 := if res.2 then change_mic_volume env res.1.mic.value else env
      (env1, { res.1 with isMicMuted := ep.mute }, res.2)

/-- update_volumes, the 200 ms timer callback: the speaker try block, then
the microphone try block, then update_mic_icon unconditionally. The two
Booleans report whether the master and mic valueChanged signals
fired during the cycle. -/
def update_volumes (env : Env) (w : WidgetState) : Env × WidgetState × Bool × Bool :=
  let a := pollSpeaker env w
  let b := pollMic a.1 a.2.1
  (b.1, update_mic_icon b.2.1, a.2.2, b.2.2)

/-- load_settings: return the parsed JSON record when the file opens and
parses, and on any failure the hard-coded default record. -/
def load_settings (file : Option Settings) : Settings :=
  match file with
  | some s => s
  | none =>
      { background_color := some "#2E2E2E",
        background_opacity := some (6 / 10),
        buttons_color := some "#2E2E2E",
        buttons_opacity := some (9 / 10),
        autostart := some false,
        position := none }

/-- A settings record with every key absent. -/
def emptySettings : Settings :=
  { background_color := none, background_opacity := none,
    buttons_color := none, buttons_opacity := none,
    autostart := none, position := none }

/-- The background color used by update_background_style:
settings.get of background_color with fallback "#0000FF". -/
def update_background_style_color (s : Settings) : String :=
  s.background_color.getD "#0000FF"

/-- The background opacity used by update_background_style:
settings.get of background_opacity with fallback 0.5. -/
def update_background_style_opacity (s : Settings) : ℚ :=
  s.background_opacity.getD (5 / 10)

/-- The button color used by apply_style:
settings.get of buttons_color with fallback "#2E2E2E". -/
def apply_style_buttons_color (s : Settings) : String :=
  s.buttons_color.getD "#2E2E2E"

/-- The button opacity used by apply_style:
settings.get of buttons_opacity with fallback 0.9. -/
def apply_style_buttons_opacity (s : Settings) : ℚ :=
  s.buttons_opacity.getD (9 / 10)

/-- save_settings: open widget_settings.json for writing and dump the
record. There is no try/except in the source, so a write failure raises out
of save_settings to its caller. -/
def save_settings (env : Env) (s : Settings) : Except Unit Env :=
  if env.settingsWritable then
    Except.ok { env with savedSettings := some s }
  else
    Except.error ()

/-- setup_auto_start: open the Run registry key; when autostart is set,
write the AudioWidget value, otherwise delete it (a missing value is caught
by the inner try). The whole body sits in a try/except that swallows every
failure, including an inaccessible key. -/
def setup_auto_start (env : Env) (s : Settings) : Env :=
  match env.registry with
  | none => env
  | some _ =>
      if s.autostart.getD false then { env with registry := some true }
      else { env with registry := some false }

/-- toggle_autostart(checked): set the autostart settings key, call
save_settings (whose failure is NOT caught here and propagates), then
setup_auto_start (which swallows its own failures). -/
def toggle_autostart (env : Env) (s : Settings) (checked : Bool) :
    Except Unit (Env × Settings) :=
  let s1 := { s with autostart := some checked }
  match save_settings env s1 with
  | Except.error e => Except.error e
  | Except.ok env1 => Except.ok (setup_auto_start env1 s1, s1)

/-- closeEvent: record the window position in the settings and call
save_settings; a save failure propagates out of the handler. -/
def closeEvent (env : Env) (s : Settings) (pos : ℤ × ℤ) :
    Except Unit (Env × Settings) :=
  let s1 := { s with position := some pos }
  match save_settings env s1 with
  | Except.error e => Except.error e
  | Except.ok env1 => Except.ok (env1, s1)

/-- True exactly when a handler returned normally rather than raising. -/
def exceptOk {α : Type} : Except Unit α → Bool
  | Except.ok _ => true
  | Except.error _ => false

/-- A slider is well-ranged when its range is the constructed 0..100 and
its value lies inside it. -/
def SliderState.inRange (s : SliderState) : Prop :=
  s.lo = 0 ∧ s.hi = 100 ∧ 0 ≤ s.value ∧ s.value ≤ 100

/-- Both sliders of the widget are well-ranged. -/
def WidgetState.sliderInv (w : WidgetState) : Prop :=
  w.master.inRange ∧ w.mic.inRange

end VolumeWidget
namespace VolumeWidget

theorem pyTrunc_intCast (p : ℤ) : pyTrunc (p : ℚ) = p := by
  simp [pyTrunc, Rat.num_intCast, Rat.den_intCast, Int.tdiv_one]

theorem pyTrunc_div_mul (p : ℤ) : pyTrunc ((p : ℚ) / 100 * 100) = p := by
  rw [div_mul_cancel₀]
  · exact pyTrunc_intCast p
  · norm_num

theorem pollSpeaker_no_fire (env : Env) (w : WidgetState) :
    (pollSpeaker env w).2.2 = false := by
  cases h : env.speaker with
  | none => simp [pollSpeaker, h]
  | some ep =>
      simp only [pollSpeaker, h]
      split
      · simp [SliderState.setValue, SliderState.blockSignals]
      · rfl

theorem pollSpeaker_env_eq (env : Env) (w : WidgetState) :
    (pollSpeaker env w).1 = env := by
  cases h : env.speaker with
  | none => simp [pollSpeaker, h]
  | some ep =>
      simp only [pollSpeaker, h]
      split
      · simp [SliderState.setValue, SliderState.blockSignals]
      · rfl

theorem pollMic_no_fire (env : Env) (w : WidgetState) :
    (pollMic env w).2.2 = false := by
  cases h : env.mic with
  | none => simp [pollMic, h]
  | some ep =>
      simp only [pollMic, h]
      split
      · simp [SliderState.setValue, SliderState.blockSignals]
      · rfl

theorem pollMic_env_eq (env : Env) (w : WidgetState) :
    (pollMic env w).1 = env := by
  cases h : env.mic with
  | none => simp [pollMic, h]
  | some ep =>
      simp only [pollMic, h]
      split
      · simp [SliderState.setValue, SliderState.blockSignals]
      · rfl

theorem pollSpeaker_master (env : Env) (w : WidgetState) :
    (pollSpeaker env w).2.1.master =
      (match env.speaker with
       | none => w.master
       | some ep =>
           if w.master.value = pyTrunc (ep.levelScalar * 100) then w.master
           else { w.master with
                    value := max w.master.lo (min w.master.hi (pyTrunc (ep.levelScalar * 100))),
                    blocked := false }) := by
  cases h : env.speaker with
  | none => simp [pollSpeaker, h]
  | some ep =>
      simp only [pollSpeaker, h, SliderState.setValue, SliderState.blockSignals]
      split
      · next hne => simp [if_neg hne]
      · next heq => rw [not_not] at heq; simp [if_pos heq]

theorem pollSpeaker_isMasterMuted (env : Env) (w : WidgetState) :
    (pollSpeaker env w).2.1.isMasterMuted =
      (match env.speaker with
       | none => w.isMasterMuted
       | some ep => ep.mute) := by
  cases h : env.speaker with
  | none => simp [pollSpeaker, h]
  | some ep =>
      simp only [pollSpeaker, h] <;>
        first
        | rfl
        | (split <;> rfl)

theorem pollSpeaker_label (env : Env) (w : WidgetState) :
    (pollSpeaker env w).2.1.speakerLabel =
      (match env.speaker with
       | none => w.speakerLabel
       | some ep => if ep.mute then "🔇" else "🔊") := by
  cases h : env.speaker with
  | none => simp [pollSpeaker, h]
  | some ep =>
      simp only [pollSpeaker, h] <;>
        first
        | rfl
        | (split <;> rfl)

theorem pollSpeaker_mic (env : Env) (w : WidgetState) :
    (pollSpeaker env w).2.1.mic = w.mic := by
  cases h : env.speaker with
  | none => simp [pollSpeaker, h]
  | some ep =>
      simp only [pollSpeaker, h] <;>
        first
        | rfl
        | (split <;> rfl)

theorem pollSpeaker_isMicMuted (env : Env) (w : WidgetState) :
    (pollSpeaker env w).2.1.isMicMuted = w.isMicMuted := by
  cases h : env.speaker with
  | none => simp [pollSpeaker, h]
  | some ep =>
      simp only [pollSpeaker, h] <;>
        first
        | rfl
        | (split <;> rfl)

theorem pollSpeaker_micIconStruck (env : Env) (w : WidgetState) :
    (pollSpeaker env w).2.1.micIconStruck = w.micIconStruck := by
  cases h : env.speaker with
  | none => simp [pollSpeaker, h]
  | some ep =>
      simp only [pollSpeaker, h] <;>
        first
        | rfl
        | (split <;> rfl)

theorem pollMic_mic (env : Env) (w : WidgetState) :
    (pollMic env w).2.1.mic =
      (match env.mic with
       | none => w.mic
       | some ep =>
           if w.mic.value = pyTrunc (ep.levelScalar * 100) then w.mic
           else { w.mic with
                    value := max w.mic.lo (min w.mic.hi (pyTrunc (ep.levelScalar * 100))),
                    blocked := false }) := by
  cases h : env.mic with
  | none => simp [pollMic, h]
  | some ep =>
      simp only [pollMic, h, SliderState.setValue, SliderState.blockSignals]
      split
      · next hne => simp [if_neg hne]
      · next heq => rw [not_not] at heq; simp [if_pos heq]

theorem pollMic_isMicMuted (env : Env) (w : WidgetState) :
    (pollMic env w).2.1.isMicMuted =
      (match env.mic with
       | none => w.isMicMuted
       | some ep => ep.mute) := by
  cases h : env.mic with
  | none => simp [pollMic, h]
  | some ep =>
      simp only [pollMic, h] <;>
        first
        | rfl
        | (split <;> rfl)

theorem pollMic_master (env : Env) (w : WidgetState) :
    (pollMic env w).2.1.master = w.master := by
  cases h : env.mic with
  | none => simp [pollMic, h]
  | some ep =>
      simp only [pollMic, h] <;>
        first
        | rfl
        | (split <;> rfl)

theorem pollMic_isMasterMuted (env : Env) (w : WidgetState) :
    (pollMic env w).2.1.isMasterMuted = w.isMasterMuted := by
  cases h : env.mic with
  | none => simp [pollMic, h]
  | some ep =>
      simp only [pollMic, h] <;>
        first
        | rfl
        | (split <;> rfl)

theorem pollMic_label (env : Env) (w : WidgetState) :
    (pollMic env w).2.1.speakerLabel = w.speakerLabel := by
  cases h : env.mic with
  | none => simp [pollMic, h]
  | some ep =>
      simp only [pollMic, h] <;>
        first
        | rfl
        | (split <;> rfl)

end VolumeWidget
namespace VolumeWidget

theorem update_volumes_fire_master (env : Env) (w : WidgetState) :
    (update_volumes env w).2.2.1 = false := by
  simp [update_volumes, pollSpeaker_no_fire]

theorem update_volumes_fire_mic (env : Env) (w : WidgetState) :
    (update_volumes env w).2.2.2 = false := by
  simp [update_volumes, pollMic_no_fire]

theorem update_volumes_env (env : Env) (w : WidgetState) :
    (update_volumes env w).1 = env := by
  simp [update_volumes, pollMic_env_eq, pollSpeaker_env_eq]

theorem update_volumes_master (env : Env) (w : WidgetState) :
    (update_volumes env w).2.1.master =
      (match env.speaker with
       | none => w.master
       | some ep =>
           if w.master.value = pyTrunc (ep.levelScalar * 100) then w.master
           else { w.master with
                    value := max w.master.lo (min w.master.hi (pyTrunc (ep.levelScalar * 100))),
                    blocked := false }) := by
  have h1 : (update_volumes env w).2.1.master =
      (pollMic (pollSpeaker env w).1 (pollSpeaker env w).2.1).2.1.master := rfl
  rw [h1, pollMic_master, pollSpeaker_master]

theorem update_volumes_isMasterMuted (env : Env) (w : WidgetState) :
    (update_volumes env w).2.1.isMasterMuted =
      (match env.speaker with
       | none => w.isMasterMuted
       | some ep => ep.mute) := by
  have h1 : (update_volumes env w).2.1.isMasterMuted =
      (pollMic (pollSpeaker env w).1 (pollSpeaker env w).2.1).2.1.isMasterMuted := rfl
  rw [h1, pollMic_isMasterMuted, pollSpeaker_isMasterMuted]

theorem update_volumes_label (env : Env) (w : WidgetState) :
    (update_volumes env w).2.1.speakerLabel =
      (match env.speaker with
       | none => w.speakerLabel
       | some ep => if ep.mute then "🔇" else "🔊") := by
  have h1 : (update_volumes env w).2.1.speakerLabel =
      (pollMic (pollSpeaker env w).1 (pollSpeaker env w).2.1).2.1.speakerLabel := rfl
  rw [h1, pollMic_label, pollSpeaker_label]

theorem update_volumes_mic (env : Env) (w : WidgetState) :
    (update_volumes env w).2.1.mic =
      (match env.mic with
       | none => w.mic
       | some ep =>
           if w.mic.value = pyTrunc (ep.levelScalar * 100) then w.mic
           else { w.mic with
                    value := max w.mic.lo (min w.mic.hi (pyTrunc (ep.levelScalar * 100))),
                    blocked := false }) := by
  have h1 : (update_volumes env w).2.1.mic =
      (pollMic (pollSpeaker env w).1 (pollSpeaker env w).2.1).2.1.mic := rfl
  rw [h1, pollMic_mic, pollSpeaker_env_eq, pollSpeaker_mic]

theorem update_volumes_isMicMuted (env : Env) (w : WidgetState) :
    (update_volumes env w).2.1.isMicMuted =
      (match env.mic with
       | none => w.isMicMuted
       | some ep => ep.mute) := by
  have h1 : (update_volumes env w).2.1.isMicMuted =
      (pollMic (pollSpeaker env w).1 (pollSpeaker env w).2.1).2.1.isMicMuted := rfl
  rw [h1, pollMic_isMicMuted, pollSpeaker_env_eq, pollSpeaker_isMicMuted]

theorem update_volumes_micIconStruck (env : Env) (w : WidgetState) :
    (update_volumes env w).2.1.micIconStruck =
      (match env.mic with
       | none => w.isMicMuted
       | some ep => ep.mute) := by
  have h1 : (update_volumes env w).2.1.micIconStruck =
      (pollMic (pollSpeaker env w).1 (pollSpeaker env w).2.1).2.1.isMicMuted := rfl
  rw [h1, pollMic_isMicMuted, pollSpeaker_env_eq, pollSpeaker_isMicMuted]

end VolumeWidget
namespace VolumeWidget

/-- C1: in every update_volumes cycle the programmatic slider updates are
guarded (a slider is written only when the freshly read integer percent
differs from its current value) and happen between blockSignals(True) and
blockSignals(False), so no valueChanged signal of either slider fires and no
write goes back to the OS; in particular when the OS percent equals the
slider value the slider state is untouched. -/
theorem c1_poll_fires_no_signal (env : Env) (w : WidgetState) :
    (update_volumes env w).2.2.1 = false ∧
    (update_volumes env w).2.2.2 = false ∧
    (update_volumes env w).1 = env ∧
    (∀ ep, env.speaker = some ep →
      w.master.value = pyTrunc (ep.levelScalar * 100) →
      (update_volumes env w).2.1.master = w.master) ∧
    (∀ ep, env.mic = some ep →
      w.mic.value = pyTrunc (ep.levelScalar * 100) →
      (update_volumes env w).2.1.mic = w.mic) := by
  refine ⟨update_volumes_fire_master env w, update_volumes_fire_mic env w,
         update_volumes_env env w, ?_, ?_⟩
  · intro ep h hv
    rw [update_volumes_master, h]
    simp [hv]
  · intro ep h hv
    rw [update_volumes_mic, h]
    simp [hv]

/-- C1 witness: a concrete poll cycle in which the OS speaker level equals
the slider value fires no signal and leaves the slider untouched. -/
theorem c1_witness :
    (update_volumes
        { speaker := some { levelScalar := 0, mute := false }, mic := none,
          settingsWritable := true, registry := none, savedSettings := none }
        initWidget).2.2.1 = false ∧
    initWidget.master.value = pyTrunc ((0 : ℚ) * 100) ∧
    (update_volumes
        { speaker := some { levelScalar := 0, mute := false }, mic := none,
          settingsWritable := true, registry := none, savedSettings := none }
        initWidget).2.1.master = initWidget.master :=
  ⟨(c1_poll_fires_no_signal _ initWidget).1,
   by simp [initWidget, initSlider, pyTrunc],
   (c1_poll_fires_no_signal _ initWidget).2.2.2.1
     { levelScalar := 0, mute := false } rfl
     (by simp [initWidget, initSlider, pyTrunc])⟩

end VolumeWidget
namespace VolumeWidget

/-- C2: the failure of each endpoint in update_volumes is isolated: when one
read of one endpoint raises, the slider of that endpoint, mute flag and icon state
are left unchanged, while the side of the other endpoint of the cycle is exactly
what it would have been in any other run differing only in the failed
endpoint, and a successful read still updates that side normally. -/
theorem c2_endpoint_failure_isolated (env : Env) (w : WidgetState) :
    (env.speaker = none →
       (update_volumes env w).2.1.master = w.master ∧
       (update_volumes env w).2.1.isMasterMuted = w.isMasterMuted ∧
       (update_volumes env w).2.1.speakerLabel = w.speakerLabel) ∧
    (env.mic = none →
       (update_volumes env w).2.1.mic = w.mic ∧
       (update_volumes env w).2.1.isMicMuted = w.isMicMuted ∧
       (update_volumes env w).2.1.micIconStruck = w.isMicMuted) ∧
    (∀ sp, (update_volumes { env with speaker := sp } w).2.1.mic =
             (update_volumes env w).2.1.mic ∧
           (update_volumes { env with speaker := sp } w).2.1.isMicMuted =
             (update_volumes env w).2.1.isMicMuted ∧
           (update_volumes { env with speaker := sp } w).2.1.micIconStruck =
             (update_volumes env w).2.1.micIconStruck) ∧
    (∀ mi, (update_volumes { env with mic := mi } w).2.1.master =
             (update_volumes env w).2.1.master ∧
           (update_volumes { env with mic := mi } w).2.1.isMasterMuted =
             (update_volumes env w).2.1.isMasterMuted ∧
           (update_volumes { env with mic := mi } w).2.1.speakerLabel =
             (update_volumes env w).2.1.speakerLabel) ∧
    (∀ ep, env.speaker = some ep →
       (update_volumes env w).2.1.isMasterMuted = ep.mute) ∧
    (∀ ep, env.mic = some ep →
       (update_volumes env w).2.1.isMicMuted = ep.mute ∧
       (update_volumes env w).2.1.micIconStruck = ep.mute) := by
  refine ⟨?_, ?_, ?_, ?_, ?_, ?_⟩
  · intro h
    rw [update_volumes_master, update_volumes_isMasterMuted, update_volumes_label, h]
    exact ⟨rfl, rfl, rfl⟩
  · intro h
    rw [update_volumes_mic, update_volumes_isMicMuted, update_volumes_micIconStruck, h]
    exact ⟨rfl, rfl, rfl⟩
  · intro sp
    rw [update_volumes_mic, update_volumes_mic, update_volumes_isMicMuted,
        update_volumes_isMicMuted, update_volumes_micIconStruck, update_volumes_micIconStruck]
    exact ⟨rfl, rfl, rfl⟩
  · intro mi
    rw [update_volumes_master, update_volumes_master, update_volumes_isMasterMuted,
        update_volumes_isMasterMuted, update_volumes_label, update_volumes_label]
    exact ⟨rfl, rfl, rfl⟩
  · intro ep h
    rw [update_volumes_isMasterMuted, h]
  · intro ep h
    rw [update_volumes_isMicMuted, update_volumes_micIconStruck, h]
    exact ⟨rfl, rfl⟩

/-- C2 witness: with the speaker endpoint unavailable and the microphone
readable, one cycle leaves the speaker side untouched and still updates the
microphone mute state. -/
theorem c2_witness :
    (update_volumes
        { speaker := none, mic := some { levelScalar := 0, mute := true },
          settingsWritable := true, registry := none, savedSettings := none }
        initWidget).2.1.master = initWidget.master ∧
    (update_volumes
        { speaker := none, mic := some { levelScalar := 0, mute := true },
          settingsWritable := true, registry := none, savedSettings := none }
        initWidget).2.1.isMicMuted = true :=
  ⟨((c2_endpoint_failure_isolated _ initWidget).1 rfl).1,
   ((c2_endpoint_failure_isolated _ initWidget).2.2.2.2.2
      { levelScalar := 0, mute := true } rfl).1⟩

/-- C8: in every cycle in which an endpoint read succeeds, the mute display
of that endpoint is refreshed from the freshly read mute flag, with no
condition on the level: the speaker label glyph is set from GetMute, and
the mic icon strike-through is redrawn from the freshly read mic mute
flag. -/
theorem c8_mute_icon_always_refreshed (env : Env) (w : WidgetState) :
    (∀ ep, env.speaker = some ep →
       (update_volumes env w).2.1.isMasterMuted = ep.mute ∧
       (update_volumes env w).2.1.speakerLabel =
         (if ep.mute then "🔇" else "🔊")) ∧
    (∀ ep, env.mic = some ep →
       (update_volumes env w).2.1.isMicMuted = ep.mute ∧
       (update_volumes env w).2.1.micIconStruck = ep.mute) := by
  refine ⟨?_, ?_⟩
  · intro ep h
    rw [update_volumes_isMasterMuted, update_volumes_label, h]
    exact ⟨rfl, rfl⟩
  · intro ep h
    rw [update_volumes_isMicMuted, update_volumes_micIconStruck, h]
    exact ⟨rfl, rfl⟩

/-- C8 witness: a cycle whose reads succeed with unchanged levels still
refreshes both mute displays. -/
theorem c8_witness :
    (update_volumes
        { speaker := some { levelScalar := 0, mute := true },
          mic := some { levelScalar := 0, mute := true },
          settingsWritable := true, registry := none, savedSettings := none }
        initWidget).2.1.speakerLabel = "🔇" ∧
    (update_volumes
        { speaker := some { levelScalar := 0, mute := true },
          mic := some { levelScalar := 0, mute := true },
          settingsWritable := true, registry := none, savedSettings := none }
        initWidget).2.1.micIconStruck = true :=
  ⟨((c8_mute_icon_always_refreshed _ initWidget).1
      { levelScalar := 0, mute := true } rfl).2,
   ((c8_mute_icon_always_refreshed _ initWidget).2
      { levelScalar := 0, mute := true } rfl).2⟩

end VolumeWidget
namespace VolumeWidget

/-- C3: for percent p in 0..100, a user drag of the speaker slider to p
followed by one poll cycle whose OS speaker read returns scalar p / 100
leaves the slider value at p, does not touch the slider, and fires no
valueChanged signal during the poll. -/
theorem c3_set_then_poll_stable (env env2 : Env) (w : WidgetState) (p : ℤ) (m : Bool)
    (h0 : 0 ≤ p) (h1 : p ≤ 100)
    (hlo : w.master.lo = 0) (hhi : w.master.hi = 100)
    (h2 : env2.speaker = some { levelScalar := (p : ℚ) / 100, mute := m }) :
    (userSetMaster env w p).2.master.value = p ∧
    (update_volumes env2 (userSetMaster env w p).2).2.1.master =
      (userSetMaster env w p).2.master ∧
    (update_volumes env2 (userSetMaster env w p).2).2.1.master.value = p ∧
    (update_volumes env2 (userSetMaster env w p).2).2.2.1 = false ∧
    (update_volumes env2 (userSetMaster env w p).2).2.2.2 = false := by
  have hval : (userSetMaster env w p).2.master.value = p := by
    show max w.master.lo (min w.master.hi p) = p
    rw [hlo, hhi]
    omega
  have hmaster : (update_volumes env2 (userSetMaster env w p).2).2.1.master =
      (userSetMaster env w p).2.master := by
    rw [update_volumes_master, h2]
    have htr : pyTrunc ((p : ℚ) / 100 * 100) = p := pyTrunc_div_mul p
    simp only [htr, hval, if_pos]
  exact ⟨hval, hmaster, by rw [hmaster]; exact hval,
        update_volumes_fire_master _ _, update_volumes_fire_mic _ _⟩

/-- C3 witness: the instance p = 50 starting from the freshly built
widget. -/
theorem c3_witness :
    (0 : ℤ) ≤ 50 ∧ (50 : ℤ) ≤ 100 ∧
    initWidget.master.lo = 0 ∧ initWidget.master.hi = 100 ∧
    (update_volumes
        { speaker := some { levelScalar := ((50 : ℤ) : ℚ) / 100, mute := false },
          mic := none, settingsWritable := true, registry := none,
          savedSettings := none }
        (userSetMaster
          { speaker := none, mic := none, settingsWritable := true,
            registry := none, savedSettings := none }
          initWidget 50).2).2.1.master.value = 50 :=
  ⟨by decide, by decide, rfl, rfl,
   (c3_set_then_poll_stable
      { speaker := none, mic := none, settingsWritable := true,
        registry := none, savedSettings := none }
      { speaker := some { levelScalar := ((50 : ℤ) : ℚ) / 100, mute := false },
        mic := none, settingsWritable := true, registry := none,
        savedSettings := none }
      initWidget 50 false (by decide) (by decide) rfl rfl rfl).2.2.1⟩

/-- C4: starting from a widget whose displayed icons agree with its local
mute flags, toggling the mute of either endpoint twice with no intervening poll
restores the local flag, the speaker label glyph and the microphone
strike-through overlay to their original values. -/
theorem c4_double_toggle_restores (env : Env) (w : WidgetState)
    (hl : w.speakerLabel = (if w.isMasterMuted then "🔇" else "🔊"))
    (hi : w.micIconStruck = w.isMicMuted) :
    (toggle_mute_master (toggle_mute_master env w).1
        (toggle_mute_master env w).2).2.isMasterMuted = w.isMasterMuted ∧
    (toggle_mute_master (toggle_mute_master env w).1
        (toggle_mute_master env w).2).2.speakerLabel = w.speakerLabel ∧
    (toggle_mute_mic (toggle_mute_mic env w).1
        (toggle_mute_mic env w).2).2.isMicMuted = w.isMicMuted ∧
    (toggle_mute_mic (toggle_mute_mic env w).1
        (toggle_mute_mic env w).2).2.micIconStruck = w.micIconStruck := by
  refine ⟨?_, ?_, ?_, ?_⟩
  · show (!(!w.isMasterMuted)) = w.isMasterMuted
    simp
  · show (if (!(!w.isMasterMuted)) then "🔇" else "🔊") = w.speakerLabel
    rw [hl, Bool.not_not]
  · show (!(!w.isMicMuted)) = w.isMicMuted
    simp
  · show (!(!w.isMicMuted)) = w.micIconStruck
    rw [hi, Bool.not_not]

/-- C4 witness: double toggles on the freshly built widget restore its
initial mute display. -/
theorem c4_witness :
    initWidget.speakerLabel = (if initWidget.isMasterMuted then "🔇" else "🔊") ∧
    initWidget.micIconStruck = initWidget.isMicMuted ∧
    (toggle_mute_master
        (toggle_mute_master
          { speaker := none, mic := none, settingsWritable := true,
            registry := none, savedSettings := none } initWidget).1
        (toggle_mute_master
          { speaker := none, mic := none, settingsWritable := true,
            registry := none, savedSettings := none } initWidget).2).2.isMasterMuted
      = initWidget.isMasterMuted :=
  ⟨rfl, rfl,
   (c4_double_toggle_restores
      { speaker := none, mic := none, settingsWritable := true,
        registry := none, savedSettings := none }
      initWidget rfl rfl).1⟩

/-- C9: a mute toggle flips the local flag before the guarded OS write and
updates the icon after it, so when the SetMute write fails (endpoint
unavailable) the local flag and icon still show the new state while the OS
state is untouched; a later successful poll overwrites the local flag with
the OS mute flag. -/
theorem c9_optimistic_toggle_on_failure (env : Env) (w : WidgetState)
    (hs : env.speaker = none) (hm : env.mic = none) :
    (toggle_mute_master env w).1 = env ∧
    (toggle_mute_master env w).2.isMasterMuted = !w.isMasterMuted ∧
    (toggle_mute_master env w).2.speakerLabel =
      (if !w.isMasterMuted then "🔇" else "🔊") ∧
    (toggle_mute_mic env w).1 = env ∧
    (toggle_mute_mic env w).2.isMicMuted = !w.isMicMuted ∧
    (toggle_mute_mic env w).2.micIconStruck = !w.isMicMuted ∧
    (∀ env2 ep, env2.speaker = some ep →
       (update_volumes env2 (toggle_mute_master env w).2).2.1.isMasterMuted = ep.mute) ∧
    (∀ env2 ep, env2.mic = some ep →
       (update_volumes env2 (toggle_mute_mic env w).2).2.1.isMicMuted = ep.mute) := by
  refine ⟨?_, rfl, rfl, ?_, rfl, rfl, ?_, ?_⟩
  · simp [toggle_mute_master, hs]
  · simp [toggle_mute_mic, hm]
  · intro env2 ep h
    rw [update_volumes_isMasterMuted, h]
  · intro env2 ep h
    rw [update_volumes_isMicMuted, h]

/-- C9 witness: with both endpoints unavailable, a toggle on the fresh
widget flips the local speaker flag and glyph while the environment is
unchanged. -/
theorem c9_witness :
    (toggle_mute_master
        { speaker := none, mic := none, settingsWritable := true,
          registry := none, savedSettings := none } initWidget).2.isMasterMuted
      = !initWidget.isMasterMuted ∧
    (toggle_mute_master
        { speaker := none, mic := none, settingsWritable := true,
          registry := none, savedSettings := none } initWidget).1
      = { speaker := none, mic := none, settingsWritable := true,
          registry := none, savedSettings := none } :=
  ⟨(c9_optimistic_toggle_on_failure _ initWidget rfl rfl).2.1,
   (c9_optimistic_toggle_on_failure _ initWidget rfl rfl).1⟩

end VolumeWidget
namespace VolumeWidget

/-- C5: the user-driven level handlers write exactly value / 100 as the new
OS scalar for their endpoint (leaving the mute flag alone), and when the
OS write fails the handler neither rolls back the slider (which keeps the
Qt-bounded requested value) nor changes any other UI state or the
environment. -/
theorem c5_handler_writes_scalar (env : Env) (w : WidgetState) (v : ℤ) :
    (∀ ep, env.speaker = some ep →
       change_master_volume env v =
         { env with speaker := some { levelScalar := (v : ℚ) / 100, mute := ep.mute } }) ∧
    (∀ ep, env.mic = some ep →
       change_mic_volume env v =
         { env with mic := some { levelScalar := (v : ℚ) / 100, mute := ep.mute } }) ∧
    (userSetMaster env w v).2.master.value = max w.master.lo (min w.master.hi v) ∧
    (userSetMic env w v).2.mic.value = max w.mic.lo (min w.mic.hi v) ∧
    (userSetMaster env w v).2.mic = w.mic ∧
    (userSetMaster env w v).2.isMasterMuted = w.isMasterMuted ∧
    (userSetMaster env w v).2.speakerLabel = w.speakerLabel ∧
    (userSetMic env w v).2.master = w.master ∧
    (userSetMic env w v).2.isMicMuted = w.isMicMuted ∧
    (userSetMic env w v).2.micIconStruck = w.micIconStruck ∧
    (env.speaker = none → (userSetMaster env w v).1 = env) ∧
    (env.mic = none → (userSetMic env w v).1 = env) := by
  refine ⟨?_, ?_, rfl, rfl, rfl, rfl, rfl, rfl, rfl, rfl, ?_, ?_⟩
  · intro ep h
    simp [change_master_volume, h]
  · intro ep h
    simp [change_mic_volume, h]
  · intro h
    simp only [userSetMaster, change_master_volume, h]
    split <;> rfl
  · intro h
    simp only [userSetMic, change_mic_volume, h]
    split <;> rfl

/-- C5 witness: with the speaker endpoint available, the handler writes
scalar 30 / 100; with it unavailable, the user event leaves the slider at
the requested value and the environment unchanged. -/
theorem c5_witness :
    change_master_volume
        { speaker := some { levelScalar := 0, mute := false }, mic := none,
          settingsWritable := true, registry := none, savedSettings := none } 30
      = { speaker := some { levelScalar := ((30 : ℤ) : ℚ) / 100, mute := false },
          mic := none, settingsWritable := true, registry := none,
          savedSettings := none } ∧
    (userSetMaster
        { speaker := none, mic := none, settingsWritable := true,
          registry := none, savedSettings := none } initWidget 30).1
      = { speaker := none, mic := none, settingsWritable := true,
          registry := none, savedSettings := none } :=
  ⟨(c5_handler_writes_scalar
      { speaker := some { levelScalar := 0, mute := false }, mic := none,
        settingsWritable := true, registry := none, savedSettings := none }
      initWidget 30).1 { levelScalar := 0, mute := false } rfl,
   (c5_handler_writes_scalar
      { speaker := none, mic := none, settingsWritable := true,
        registry := none, savedSettings := none }
      initWidget 30).2.2.2.2.2.2.2.2.2.2.1 rfl⟩

theorem setValue_inRange (s : SliderState) (v : ℤ) (h : s.inRange) :
    ((s.setValue v).1).inRange := by
  obtain ⟨h1, h2, h3, h4⟩ := h
  refine ⟨h1, h2, ?_, ?_⟩
  · show (0 : ℤ) ≤ max s.lo (min s.hi v)
    rw [h1]
    omega
  · show max s.lo (min s.hi v) ≤ 100
    rw [h1, h2]
    omega

end VolumeWidget
namespace VolumeWidget

theorem inRange_clamp (s : SliderState) (c : ℤ) (h : s.inRange) :
    SliderState.inRange
      { s with value := max s.lo (min s.hi c), blocked := false } := by
  obtain ⟨h1, h2, h3, h4⟩ := h
  refine ⟨h1, h2, ?_, ?_⟩
  · show (0 : ℤ) ≤ max s.lo (min s.hi c)
    rw [h1]
    omega
  · show max s.lo (min s.hi c) ≤ 100
    rw [h1, h2]
    omega

/-- C10: both sliders are constructed with range 0..100; every operation
preserves that range and keeps the values inside it, and whenever a
user-driven handler changes the scalar of an endpoint it writes a value in
0..1 (the Qt-bounded slider value divided by 100). -/
theorem c10_scalar_writes_bounded (env : Env) (w : WidgetState) (v : ℤ)
    (hw : w.sliderInv) :
    initWidget.sliderInv ∧
    (userSetMaster env w v).2.sliderInv ∧
    (userSetMic env w v).2.sliderInv ∧
    (update_volumes env w).2.1.sliderInv ∧
    (toggle_mute_master env w).2.sliderInv ∧
    (toggle_mute_mic env w).2.sliderInv ∧
    (∀ ep, (userSetMaster env w v).1.speaker = some ep →
       env.speaker = some ep ∨ (0 ≤ ep.levelScalar ∧ ep.levelScalar ≤ 1)) ∧
    (∀ ep, (userSetMic env w v).1.mic = some ep →
       env.mic = some ep ∨ (0 ≤ ep.levelScalar ∧ ep.levelScalar ≤ 1)) := by
  have hcm : 0 ≤ max w.master.lo (min w.master.hi v) ∧
      max w.master.lo (min w.master.hi v) ≤ 100 := by
    rw [hw.1.1, hw.1.2.1]
    omega
  have hcmic : 0 ≤ max w.mic.lo (min w.mic.hi v) ∧
      max w.mic.lo (min w.mic.hi v) ≤ 100 := by
    rw [hw.2.1, hw.2.2.1]
    omega
  refine ⟨⟨⟨rfl, rfl, le_refl 0, by decide⟩, ⟨rfl, rfl, le_refl 0, by decide⟩⟩,
         ⟨setValue_inRange w.master v hw.1, hw.2⟩,
         ⟨hw.1, setValue_inRange w.mic v hw.2⟩, ⟨?_, ?_⟩, hw, hw, ?_, ?_⟩
  · rw [update_volumes_master]
    cases h : env.speaker with
    | none => exact hw.1
    | some ep =>
        dsimp only
        split_ifs
        · exact hw.1
        · exact inRange_clamp w.master _ hw.1
  · rw [update_volumes_mic]
    cases h : env.mic with
    | none => exact hw.2
    | some ep =>
        dsimp only
        split_ifs
        · exact hw.2
        · exact inRange_clamp w.mic _ hw.2
  · intro ep hep
    simp only [userSetMaster] at hep
    by_cases hf : (w.master.setValue v).2 = true
    · rw [if_pos hf] at hep
      cases hsp : env.speaker with
      | none =>
          left
          rw [show change_master_volume env ((w.master.setValue v).1.value) = env by
                simp [change_master_volume, hsp]] at hep
          rw [hsp] at hep
          exact hep
      | some ep0 =>
          right
          simp only [change_master_volume, hsp, Option.some.injEq] at hep
          rw [← hep]
          constructor
          · apply div_nonneg _ (by norm_num)
            exact_mod_cast hcm.1
          · rw [div_le_one (by norm_num)]
            exact_mod_cast hcm.2
    · rw [if_neg hf] at hep
      left
      exact hep
  · intro ep hep
    simp only [userSetMic] at hep
    by_cases hf : (w.mic.setValue v).2 = true
    · rw [if_pos hf] at hep
      cases hsp : env.mic with
      | none =>
          left
          rw [show change_mic_volume env ((w.mic.setValue v).1.value) = env by
                simp [change_mic_volume, hsp]] at hep
          rw [hsp] at hep
          exact hep
      | some ep0 =>
          right
          simp only [change_mic_volume, hsp, Option.some.injEq] at hep
          rw [← hep]
          constructor
          · apply div_nonneg _ (by norm_num)
            exact_mod_cast hcmic.1
          · rw [div_le_one (by norm_num)]
            exact_mod_cast hcmic.2
    · rw [if_neg hf] at hep
      left
      exact hep

/-- C10 witness: the fresh widget satisfies the slider invariant and keeps
it across a user event. -/
theorem c10_witness :
    initWidget.sliderInv ∧
    (userSetMaster
        { speaker := none, mic := none, settingsWritable := true,
          registry := none, savedSettings := none } initWidget 230).2.sliderInv :=
  ⟨(c10_scalar_writes_bounded
      { speaker := none, mic := none, settingsWritable := true,
        registry := none, savedSettings := none } initWidget 230
      ⟨⟨rfl, rfl, le_refl 0, by decide⟩, ⟨rfl, rfl, le_refl 0, by decide⟩⟩).1,
   (c10_scalar_writes_bounded
      { speaker := none, mic := none, settingsWritable := true,
        registry := none, savedSettings := none } initWidget 230
      ⟨⟨rfl, rfl, le_refl 0, by decide⟩, ⟨rfl, rfl, le_refl 0, by decide⟩⟩).2.1⟩

end VolumeWidget
namespace VolumeWidget

/-- C6 counterexample: with the background_color key absent from a loaded
settings record, the styling code falls back to the color "#0000FF" and
opacity 0.5, not the documented defaults "#2E2E2E" and 0.6. -/
theorem c6_counterexample :
    update_background_style_color emptySettings ≠ "#2E2E2E" ∧
    update_background_style_opacity emptySettings ≠ 6 / 10 := by
  constructor
  · intro h
    exact absurd h (by decide)
  · intro h
    rw [show update_background_style_opacity emptySettings = 5 / 10 from rfl] at h
    norm_num at h

/-- C6 (amended): a missing or unreadable settings file makes load_settings
supply the documented defaults ("#2E2E2E", 0.6, "#2E2E2E", 0.9, autostart
false); a readable file is returned as-is; for individually absent keys the
styling code falls back to "#2E2E2E" and 0.9 for the buttons but to
"#0000FF" and 0.5 (not the documented "#2E2E2E" and 0.6) for the
background. -/
theorem c6_defaults_supplied (s : Settings) :
    load_settings none =
      { background_color := some "#2E2E2E", background_opacity := some (6 / 10),
        buttons_color := some "#2E2E2E", buttons_opacity := some (9 / 10),
        autostart := some false, position := none } ∧
    load_settings (some s) = s ∧
    (s.buttons_color = none → apply_style_buttons_color s = "#2E2E2E") ∧
    (s.buttons_opacity = none → apply_style_buttons_opacity s = 9 / 10) ∧
    (s.background_color = none → update_background_style_color s = "#0000FF") ∧
    (s.background_opacity = none → update_background_style_opacity s = 5 / 10) := by
  refine ⟨rfl, rfl, ?_, ?_, ?_, ?_⟩ <;>
    (intro h; simp [apply_style_buttons_color, apply_style_buttons_opacity,
      update_background_style_color, update_background_style_opacity, h])

/-- C6 witness: the empty record takes every per-key fallback. -/
theorem c6_witness :
    emptySettings.buttons_color = none ∧
    apply_style_buttons_color emptySettings = "#2E2E2E" ∧
    emptySettings.background_color = none ∧
    update_background_style_color emptySettings = "#0000FF" :=
  ⟨rfl, (c6_defaults_supplied emptySettings).2.2.1 rfl, rfl,
   (c6_defaults_supplied emptySettings).2.2.2.2.1 rfl⟩

/-- C7 counterexample: if writing widget_settings.json fails, the exception
raised by save_settings propagates out of the toggle_autostart handler
(the handler does not return normally). -/
theorem c7_counterexample :
    toggle_autostart
        { speaker := none, mic := none, settingsWritable := false,
          registry := some false, savedSettings := none }
        (load_settings none) true = Except.error () := rfl

/-- C7 (amended): the audio-endpoint handlers and the poll are total, and
setup_auto_start swallows registry failures, so toggle_autostart raises
exactly when the unguarded save_settings raises: each of save_settings,
toggle_autostart and closeEvent returns normally precisely when the
settings file is writable, regardless of registry availability. -/
theorem c7_save_failure_propagates (env : Env) (s : Settings) (c : Bool)
    (pos : ℤ × ℤ) :
    exceptOk (save_settings env s) = env.settingsWritable ∧
    exceptOk (toggle_autostart env s c) = env.settingsWritable ∧
    exceptOk (closeEvent env s pos) = env.settingsWritable := by
  unfold exceptOk toggle_autostart closeEvent save_settings
  cases hw : env.settingsWritable <;> simp [hw]

end VolumeWidget
